import Mathlib

/-!
Verification development for the localstack Step Functions backend
(`localstack/services/stepfunctions/backend/execution.py`,
`.../state_task/state_task.py`) and the IAM role resource provider
(`localstack-core/localstack/services/iam/resource_providers/aws_iam_role.py`).

Shallow embedding: each Python function of interest is transcribed as an
executable Lean definition over explicit state values; raised exceptions are
represented as an `Option String` field of the operation outcome.
-/

namespace LocalStackSpec

/-! ## JSON documents and their compact serialization

Models the JSON values flowing through executions, and
`localstack...asl.utils.encoding.to_json_str(v, separators=(",", ":"))`
(compact serialization with no whitespace). -/

inductive Json where
  | null : Json
  | bool (b : Bool) : Json
  | num (n : Int) : Json
  | str (s : String) : Json
  | arr (elems : List Json) : Json
  | obj (fields : List (String × Json)) : Json
deriving Repr

mutual

def Json.render : Json → String
  | .null => "null"
  | .bool b => cond b "true" "false"
  | .num n => toString n
  | .str s => "\x22" ++ s ++ "\x22"
  | .arr es => "[" ++ Json.renderArr es ++ "]"
  | .obj fs => "\x7b" ++ Json.renderObj fs ++ "\x7d"

def Json.renderArr : List Json → String
  | [] => ""
  | [x] => Json.render x
  | x :: y :: xs => Json.render x ++ "," ++ Json.renderArr (y :: xs)

def Json.renderObj : List (String × Json) → String
  | [] => ""
  | [(k, v)] => "\x22" ++ k ++ "\x22:" ++ Json.render v
  | (k, v) :: y :: xs =>
      "\x22" ++ k ++ "\x22:" ++ Json.render v ++ "," ++ Json.renderObj (y :: xs)

end

/-- `to_json_str(input_data)` where `input_data: Optional[dict]`: Python `None`
serializes to the JSON literal `null`. -/
def toJsonStrOpt : Option Json → String
  | none => Json.render Json.null
  | some j => Json.render j

/-! ## Execution status and program state

`ExecutionStatus` is from `localstack.aws.api.stepfunctions`.
`ProgramState` models
`localstack/services/stepfunctions/asl/eval/program_state.py`, which is not
under the sources provided here. -/

inductive ExecutionStatus where
  | RUNNING
  | SUCCEEDED
  | FAILED
  | TIMED_OUT
  | ABORTED
deriving DecidableEq, Repr

/-- Modelled from the spec: the program-state holder is
"one of \x7bRunning, Ended(output), Stopped(cause), Errored(error, cause)\x7d";
`ProgramError.error` is the failure record whose `error` and `cause` entries
`Execution.BaseExecutionWorkerComm.terminated` reads. -/
inductive ProgramState where
  | running
  | ended
  | stopped (cause : Option String)
  | errored (error : String) (cause : String)
deriving Repr

/-- Modelled from the spec: the Environment of the worker
(`localstack/services/stepfunctions/asl/eval/environment.py`, not under the
sources provided): `inp` holds the program's final stack-top output value when
the program has ended, `programState` the Program State holder, and
`stopSignaled` the cancellation signal that `stop()` sets. -/
structure Environment where
  inp : Json
  programState : ProgramState
  stopSignaled : Bool
deriving Repr

/-- Modelled from the spec: the Execution Worker
(`localstack/services/stepfunctions/backend/execution_worker.py`, not under the
sources provided) owns one Environment and runs the definition against it. -/
structure ExecutionWorker where
  role_arn : String
  input_data : Option Json
  env : Environment
deriving Repr

structure StateMachineRef where
  arn : String
  name : String
  definition : String
deriving DecidableEq, Repr

/-! ## The Execution entity (`backend/execution.py`) -/

structure Execution where
  name : String
  role_arn : String
  exec_arn : String
  state_machine : StateMachineRef
  start_date : Nat
  input_data : Option Json
  input_details_included : Bool
  exec_status : Option ExecutionStatus
  stop_date : Option Nat
  output : Option String
  output_details_included : Bool
  error : Option String
  cause : Option String
  exec_worker : Option ExecutionWorker
deriving Repr

/-- Result of running one Python method on an `Execution`: the (possibly
mutated) entity together with the exception it raised, if any. -/
structure Outcome where
  exec : Execution
  raised : Option String
deriving Repr

/-- The EventBridge client call `self._events_client.put_events(...)`, an
external collaborator that may raise. -/
def putEvents (fails : Bool) : Except String Unit :=
  if fails then Except.error "EventBridge put_events failed" else Except.ok ()

/-- `Execution._publish_execution_status_change_event`: builds the
notification entry (pure), calls `put_events` inside `try`, and on `except
Exception` only logs; it never re-raises and never assigns any field. -/
def Execution.publishStatusChangeEvent (e : Execution) (putEventsFails : Bool) :
    Outcome :=
  match putEvents putEventsFails with
  | Except.ok _ => { exec := e, raised := none }
  | Except.error _ => { exec := e, raised := none }

/-- The fresh `ExecutionWorker(...)` constructed inside `Execution.start`. -/
def Execution.newWorker (e : Execution) : ExecutionWorker :=
  { role_arn := e.role_arn
    input_data := e.input_data
    env := { inp := Json.null, programState := ProgramState.running,
             stopSignaled := false } }

/-- `Execution.start`: `if self.exec_worker: raise InvalidName()`; otherwise
assigns a fresh worker, sets `exec_status = RUNNING`, publishes the status
change, and starts the worker thread (external, no entity mutation). -/
def Execution.start (e : Execution) (putEventsFails : Bool) : Outcome :=
  match e.exec_worker with
  | some _ => { exec := e, raised := some "InvalidName" }
  | none =>
      let e1 := { e with
        exec_worker := some e.newWorker
        exec_status := some ExecutionStatus.RUNNING }
      e1.publishStatusChangeEvent putEventsFails

/-- `Execution.stop`: `if not exec_worker: raise RuntimeError("No running
executions.")`; otherwise delegates to `exec_worker.stop(...)`, which signals
cancellation on the worker's Environment and mutates no `Execution` field. -/
def Execution.stop (e : Execution) (stop_date : Nat) (error cause : Option String) :
    Outcome :=
  match e.exec_worker with
  | none => { exec := e, raised := some "RuntimeError: No running executions." }
  | some w =>
      { exec := { e with
          exec_worker := some { w with env := { w.env with stopSignaled := true } } }
        raised := none }

/-- `Execution.BaseExecutionWorkerComm.terminated`: reads the worker's exit
program state, stamps `stop_date`, finalizes status/output/error/cause per the
program state, raises `RuntimeWarning` on an unsupported program state, and
publishes the status-change notification. -/
def Execution.terminated (e : Execution) (now : Nat) (putEventsFails : Bool) :
    Outcome :=
  match e.exec_worker with
  | none => { exec := e, raised := some "AttributeError: exec_worker is None" }
  | some w =>
      let e1 := { e with stop_date := some now }
      match w.env.programState with
      | ProgramState.ended =>
          let e2 := { e1 with
            exec_status := some ExecutionStatus.SUCCEEDED
            output := some (Json.render w.env.inp) }
          e2.publishStatusChangeEvent putEventsFails
      | ProgramState.stopped _ =>
          let e2 := { e1 with exec_status := some ExecutionStatus.ABORTED }
          e2.publishStatusChangeEvent putEventsFails
      | ProgramState.errored err cause =>
          let e2 := { e1 with
            exec_status := some ExecutionStatus.FAILED
            error := some err
            cause := some cause }
          e2.publishStatusChangeEvent putEventsFails
      | ProgramState.running =>
          { exec := e1
            raised := some "RuntimeWarning: unsupported ProgramState type" }

/-! ## `Execution.to_describe_output` -/

/-- `DescribeExecutionOutput` as built by `to_describe_output`; for the
conditionally-present keys, `none` means the key is absent from the returned
record. For `output` the inner `Option` is the stored `self.output` value
itself (`Optional[SensitiveData]`). -/
structure DescribeExecutionOutput where
  executionArn : String
  stateMachineArn : String
  name : String
  status : Option ExecutionStatus
  startDate : Nat
  stopDate : Option Nat
  input : String
  inputDetailsIncluded : Bool
  output : Option (Option String)
  outputDetailsIncluded : Option Bool
  error : Option String
  cause : Option String
deriving Repr

def Execution.toDescribeOutput (e : Execution) : DescribeExecutionOutput :=
  let base : DescribeExecutionOutput := {
    executionArn := e.exec_arn
    stateMachineArn := e.state_machine.arn
    name := e.name
    status := e.exec_status
    startDate := e.start_date
    stopDate := e.stop_date
    input := toJsonStrOpt e.input_data
    inputDetailsIncluded := e.input_details_included
    output := none
    outputDetailsIncluded := none
    error := none
    cause := none }
  let withOutput :=
    if base.status = some ExecutionStatus.SUCCEEDED then
      { base with
        output := some e.output
        outputDetailsIncluded := some e.output_details_included }
    else base
  let withError :=
    match e.error with
    | some err => { withOutput with error := some err }
    | none => withOutput
  match e.cause with
  | some c => { withError with cause := some c }
  | none => withError

/-! ## StateTask (`asl/.../state_task/state_task.py`) -/

inductive StatesErrorNameType where
  | StatesALL
  | StatesTimeout
  | StatesTaskFailed
  | StatesRuntime
  | StatesHeartbeatTimeout
  | StatesNoChoiceMatched
deriving DecidableEq, Repr

def StatesErrorNameType.toName : StatesErrorNameType → String
  | .StatesALL => "States.ALL"
  | .StatesTimeout => "States.Timeout"
  | .StatesTaskFailed => "States.TaskFailed"
  | .StatesRuntime => "States.Runtime"
  | .StatesHeartbeatTimeout => "States.HeartbeatTimeout"
  | .StatesNoChoiceMatched => "States.NoChoiceMatched"

structure StatesErrorName where
  typ : StatesErrorNameType
deriving DecidableEq, Repr

inductive HistoryEventType where
  | TaskStateEntered
  | TaskStateExited
  | TaskTimedOut
  | TaskFailed
  | ExecutionFailed
deriving DecidableEq, Repr

structure TaskTimedOutEventDetails where
  error : String
deriving DecidableEq, Repr

structure EventDetails where
  taskTimedOutEventDetails : Option TaskTimedOutEventDetails
  taskFailedEventDetails : Option (String × String)
deriving DecidableEq, Repr

structure FailureEvent where
  error_name : StatesErrorName
  event_type : HistoryEventType
  event_details : EventDetails
deriving DecidableEq, Repr

/-- Python exceptions as seen by `_from_error`: `isinstance(ex, TimeoutError)`
holds exactly for the `timeoutError` constructor. -/
inductive PyException where
  | timeoutError (msg : String)
  | other (name : String) (msg : String)
deriving DecidableEq, Repr

def PyException.isTimeoutError : PyException → Bool
  | .timeoutError _ => true
  | .other _ _ => false

/-- Modelled from the spec: `ExecutionState._from_error` (the superclass
generic failure conversion in `execute_state.py`, not under the sources
provided) maps a generic invocation failure to a `States.TaskFailed`
FailureEvent carrying the invocation's reported error/cause. -/
def ExecutionState.fromError (ex : PyException) : FailureEvent :=
  { error_name := { typ := StatesErrorNameType.StatesTaskFailed }
    event_type := HistoryEventType.TaskFailed
    event_details := {
      taskTimedOutEventDetails := none
      taskFailedEventDetails :=
        some (StatesErrorNameType.StatesTaskFailed.toName,
              match ex with
              | PyException.timeoutError m => m
              | PyException.other _ m => m) } }

/-- `StateTask._get_timed_out_failure_event`. -/
def StateTask.getTimedOutFailureEvent : FailureEvent :=
  { error_name := { typ := StatesErrorNameType.StatesTimeout }
    event_type := HistoryEventType.TaskTimedOut
    event_details := {
      taskTimedOutEventDetails :=
        some { error := StatesErrorNameType.StatesTimeout.toName }
      taskFailedEventDetails := none } }

/-- `StateTask._from_error`: a `TimeoutError` becomes the timed-out failure
event; any other exception is delegated to the superclass conversion. -/
def StateTask.fromError (ex : PyException) : FailureEvent :=
  match ex with
  | PyException.timeoutError _ => StateTask.getTimedOutFailureEvent
  | PyException.other _ _ => ExecutionState.fromError ex

/-! ## `StateTask._eval_parameters` -/

/-- The evaluation-time environment a task evaluation sees: the value stack
(stack top last popped first, list head = top). -/
structure TaskEnv where
  stack : List Json
deriving Repr

/-- The `Parameters` component (`asl/component/common/parameters.py`, not
under the sources provided): its `eval` pushes one computed payload document
onto the stack, which `_eval_parameters` immediately pops; the net effect is a
function from the environment to the document. -/
def ParametersComp : Type := TaskEnv → List (String × Json)

structure StateTaskModel where
  parameters : Option ParametersComp
  supportedParameters : Option (List String)

/-- `StateTask._eval_parameters`: starts from `parameters = dict()`; if the
state's `parameters` component is set, evaluates it and pops the result; then
drops every key not in `_get_supported_parameters()` when that set is truthy
(non-`None` and non-empty). -/
def StateTask.evalParameters (st : StateTaskModel) (env : TaskEnv) :
    TaskEnv × List (String × Json) :=
  let params : List (String × Json) :=
    match st.parameters with
    | none => []
    | some p => p env
  let params2 :=
    match st.supportedParameters with
    | none => params
    | some supported =>
        if supported.isEmpty then params
        else params.filter (fun kv => supported.contains kv.1)
  (env, params2)

/-! ## IAM role resource provider (`aws_iam_role.py`) -/

structure IAMRoleProperties where
  RoleName : Option String
  AssumeRolePolicyDocument : Option String
  ManagedPolicyArns : Option (List String)
  Description : Option String
  Arn : Option String
  RoleId : Option String
deriving DecidableEq, Repr

/-- The two mutating phases `IAMRoleProvider.update` can run: the replacement
branch calls `self.delete(request)` then `self.create(request)`. -/
inductive IamMutation where
  | deleteExistingRole
  | createNewRole
deriving DecidableEq, Repr

inductive UpdateOutcome where
  | replace
  | keep (resource_model : IAMRoleProperties)
deriving DecidableEq, Repr

/-- Mutating IAM calls issued on each branch of `update`: the `keep` branch
returns `ProgressEvent(SUCCESS, previous_state)` directly, issuing none. -/
def UpdateOutcome.mutations : UpdateOutcome → List IamMutation
  | .replace => [IamMutation.deleteExistingRole, IamMutation.createNewRole]
  | .keep _ => []

/-- `IAMRoleProvider.update`: change detection over desired vs previous state.
`name_changed` is `new_role_name and new_role_name != _states["RoleName"]`
(Python truthiness: `None` and the empty string are falsy; reading
`_states["RoleName"]` raises `KeyError` when absent); `policy_changed` is
`props_policy and props_policy != _states.get("AssumeRolePolicyDocument", "")`;
`managed_policy_arns_changed` compares both sides with default `[]`. Any
change selects delete-then-create, otherwise the previous state is returned
with SUCCESS. -/
def IAMRoleProvider.update (prev desired : IAMRoleProperties) :
    Except String UpdateOutcome :=
  match prev.RoleName with
  | none => Except.error "KeyError: RoleName"
  | some prevName =>
      let name_changed :=
        match desired.RoleName with
        | none => false
        | some n => decide (n ≠ "") && decide (n ≠ prevName)
      let policy_changed :=
        match desired.AssumeRolePolicyDocument with
        | none => false
        | some p =>
            decide (p ≠ "") && decide (p ≠ prev.AssumeRolePolicyDocument.getD "")
      let arns_changed :=
        decide (desired.ManagedPolicyArns.getD [] ≠ prev.ManagedPolicyArns.getD [])
      if name_changed || policy_changed || arns_changed then
        Except.ok UpdateOutcome.replace
      else
        Except.ok (UpdateOutcome.keep prev)

/-- The spec-side change predicate, following the claim's words as amended:
the desired RoleName is given, non-empty, and differs from the previous name;
or the desired AssumeRolePolicyDocument is given, non-empty, and differs from
the previous one (absent previous read as empty); or the ManagedPolicyArns
lists (absent read as the empty list) differ. -/
def roleUpdateRequiresReplacement (prev desired : IAMRoleProperties)
    (prevName : String) : Bool :=
  (match desired.RoleName with
   | none => false
   | some n => decide (n ≠ "") && decide (n ≠ prevName)) ||
  (match desired.AssumeRolePolicyDocument with
   | none => false
   | some p => decide (p ≠ "") &&
       decide (p ≠ prev.AssumeRolePolicyDocument.getD "")) ||
  decide (desired.ManagedPolicyArns.getD [] ≠ prev.ManagedPolicyArns.getD [])

/-! ## Concrete fixtures -/

def smRef : StateMachineRef :=
  { arn := "arn:aws:states:us-east-1:000000000000:stateMachine:sm"
    name := "sm"
    definition := "definition" }

def execFresh : Execution :=
  { name := "exec-one"
    role_arn := "arn:aws:iam::000000000000:role/sfn-role"
    exec_arn := "arn:aws:states:us-east-1:000000000000:execution:sm:exec-one"
    state_machine := smRef
    start_date := 1
    input_data := some (Json.obj [("a", Json.num 1)])
    input_details_included := true
    exec_status := none
    stop_date := none
    output := none
    output_details_included := true
    error := none
    cause := none
    exec_worker := none }

def workerEnded : ExecutionWorker :=
  { role_arn := "arn:aws:iam::000000000000:role/sfn-role"
    input_data := some (Json.obj [("a", Json.num 1)])
    env := { inp := Json.obj [("a", Json.num 1)]
             programState := ProgramState.ended
             stopSignaled := false } }

def execEnded : Execution :=
  { execFresh with
    exec_worker := some workerEnded
    exec_status := some ExecutionStatus.RUNNING }

def workerErrored : ExecutionWorker :=
  { role_arn := "arn:aws:iam::000000000000:role/sfn-role"
    input_data := some (Json.obj [("a", Json.num 1)])
    env := { inp := Json.null
             programState := ProgramState.errored "CustomError" "it broke"
             stopSignaled := false } }

def execErrored : Execution :=
  { execFresh with
    exec_worker := some workerErrored
    exec_status := some ExecutionStatus.RUNNING }

/-! ## Helper lemmas -/

theorem publish_noop (e : Execution) (pf : Bool) :
    e.publishStatusChangeEvent pf = { exec := e, raised := none } := by
  cases pf <;> rfl

/-! ## Claims about the Execution entity -/

/-- Claim C1: for every execution whose worker terminates with Program State
Ended, the completion callback sets the execution's status to SUCCEEDED and
sets the execution's output to the JSON serialization of the program's final
stack-top output value. -/
theorem terminated_ended_sets_succeeded_output
    (e : Execution) (now : Nat) (pf : Bool) (w : ExecutionWorker)
    (hw : e.exec_worker = some w)
    (hps : w.env.programState = ProgramState.ended) :
    (e.terminated now pf).exec.exec_status = some ExecutionStatus.SUCCEEDED ∧
    (e.terminated now pf).exec.output = some (Json.render w.env.inp) ∧
    (e.terminated now pf).raised = none := by
  simp [Execution.terminated, hw, hps, publish_noop]

theorem terminated_ended_witness :
    execEnded.exec_worker = some workerEnded ∧
    workerEnded.env.programState = ProgramState.ended ∧
    (execEnded.terminated 5 false).exec.exec_status = some ExecutionStatus.SUCCEEDED ∧
    (execEnded.terminated 5 false).exec.output =
      some (Json.render (Json.obj [("a", Json.num 1)])) ∧
    (execEnded.terminated 5 false).raised = none :=
  ⟨rfl, rfl, terminated_ended_sets_succeeded_output execEnded 5 false workerEnded rfl rfl⟩

/-- Claim C2: for every execution whose worker terminates with Program State
Errored(error, cause), the completion callback sets the execution's status to
FAILED and its error and cause fields to exactly the error and cause of the
unhandled FailureEvent, and the describe operation then returns those same
error and cause values verbatim. -/
theorem terminated_errored_sets_failed_error_cause
    (e : Execution) (now : Nat) (pf : Bool) (w : ExecutionWorker) (err cs : String)
    (hw : e.exec_worker = some w)
    (hps : w.env.programState = ProgramState.errored err cs) :
    (e.terminated now pf).exec.exec_status = some ExecutionStatus.FAILED ∧
    (e.terminated now pf).exec.error = some err ∧
    (e.terminated now pf).exec.cause = some cs ∧
    (e.terminated now pf).exec.toDescribeOutput.error = some err ∧
    (e.terminated now pf).exec.toDescribeOutput.cause = some cs := by
  simp [Execution.terminated, hw, hps, publish_noop, Execution.toDescribeOutput]

theorem terminated_errored_witness :
    execErrored.exec_worker = some workerErrored ∧
    workerErrored.env.programState = ProgramState.errored "CustomError" "it broke" ∧
    (execErrored.terminated 5 false).exec.exec_status = some ExecutionStatus.FAILED ∧
    (execErrored.terminated 5 false).exec.error = some "CustomError" ∧
    (execErrored.terminated 5 false).exec.cause = some "it broke" ∧
    (execErrored.terminated 5 false).exec.toDescribeOutput.error = some "CustomError" ∧
    (execErrored.terminated 5 false).exec.toDescribeOutput.cause = some "it broke" :=
  ⟨rfl, rfl,
   terminated_errored_sets_failed_error_cause execErrored 5 false workerErrored
     "CustomError" "it broke" rfl rfl⟩

/-- Claim C3: calling start() on an Execution that owns an active Execution
Worker raises a conflict error and does not replace the existing worker (the
whole entity, its worker reference included, is left unchanged). -/
theorem start_with_active_worker_conflicts
    (e : Execution) (pf : Bool) (w : ExecutionWorker)
    (hw : e.exec_worker = some w) :
    (e.start pf).raised = some "InvalidName" ∧ (e.start pf).exec = e := by
  simp [Execution.start, hw]

theorem start_with_active_worker_witness :
    execEnded.exec_worker = some workerEnded ∧
    (execEnded.start false).raised = some "InvalidName" ∧
    (execEnded.start false).exec = execEnded :=
  ⟨rfl, start_with_active_worker_conflicts execEnded false workerEnded rfl⟩

/-- Claim C4: calling stop() on an Execution with no active Execution Worker
raises a usage error and leaves the execution (in particular its status,
output, error, and cause fields) unchanged. -/
theorem stop_without_worker_errors
    (e : Execution) (sd : Nat) (err cs : Option String)
    (hw : e.exec_worker = none) :
    (e.stop sd err cs).raised = some "RuntimeError: No running executions." ∧
    (e.stop sd err cs).exec = e := by
  simp [Execution.stop, hw]

theorem stop_without_worker_witness :
    execFresh.exec_worker = none ∧
    (execFresh.stop 7 none none).raised = some "RuntimeError: No running executions." ∧
    (execFresh.stop 7 none none).exec = execFresh :=
  ⟨rfl, stop_without_worker_errors execFresh 7 none none rfl⟩

/-- Claim C7: a failure raised while publishing a status-change notification
is caught and logged, never propagates to the caller, and never modifies the
execution entity (in particular status, output, error, and cause). -/
theorem publish_failure_caught_and_pure (e : Execution) (putEventsFails : Bool) :
    (e.publishStatusChangeEvent putEventsFails).raised = none ∧
    (e.publishStatusChangeEvent putEventsFails).exec = e := by
  cases putEventsFails <;> exact ⟨rfl, rfl⟩

/-- The fields the spec declares immutable post-creation, plus the fields no
lifecycle operation writes (input data and the details records): an operation
preserves this frame exactly when it mutates only status, stop_date, output,
error, cause, and the worker. -/
def framePreserved (a b : Execution) : Prop :=
  b.name = a.name ∧ b.role_arn = a.role_arn ∧ b.exec_arn = a.exec_arn ∧
  b.state_machine = a.state_machine ∧ b.start_date = a.start_date ∧
  b.input_data = a.input_data ∧
  b.input_details_included = a.input_details_included ∧
  b.output_details_included = a.output_details_included

/-- Claim C8, counterexample: start() on an execution with no worker mutates
the exec_worker field (from None to the fresh worker), so it is not true that
only status, stop_date, output, error, and cause are ever mutated after
construction. -/
theorem start_mutates_exec_worker :
    (execFresh.start false).exec.exec_worker ≠ execFresh.exec_worker := by
  simp [Execution.start, execFresh, publish_noop]

/-- Claim C8 as amended: start(), stop(), and the worker-completion callback
leave name, role_arn, exec_arn, state_machine, start_date (and the input data
and data-details records) unchanged; only status, stop_date, output, error,
cause, and the execution worker (its reference and environment) are mutated
after construction. -/
theorem lifecycle_ops_preserve_immutable_fields
    (e : Execution) (now sd : Nat) (pf : Bool) (err cs : Option String) :
    framePreserved e (e.start pf).exec ∧
    framePreserved e (e.stop sd err cs).exec ∧
    framePreserved e (e.terminated now pf).exec := by
  refine ⟨?_, ?_, ?_⟩ <;>
    cases hw : e.exec_worker <;>
      simp [Execution.start, Execution.stop, Execution.terminated, hw,
            publish_noop, framePreserved]
  case _ w =>
    cases w.env.programState <;> simp [publish_noop, framePreserved]

/-- Claim C9: the describe output includes the output and outputDetails keys
if and only if the execution's status is SUCCEEDED, and its error
(respectively cause) key equals the stored field, hence is present exactly
when that field is non-None and carries the stored value verbatim; in
particular FAILED and ABORTED executions never carry an output key. -/
theorem describe_output_key_presence (e : Execution) :
    (e.toDescribeOutput.output.isSome ↔
       e.exec_status = some ExecutionStatus.SUCCEEDED) ∧
    (e.toDescribeOutput.outputDetailsIncluded.isSome ↔
       e.exec_status = some ExecutionStatus.SUCCEEDED) ∧
    e.toDescribeOutput.error = e.error ∧
    e.toDescribeOutput.cause = e.cause := by
  unfold Execution.toDescribeOutput
  cases he : e.error <;> cases hc : e.cause <;>
    by_cases hs : e.exec_status = some ExecutionStatus.SUCCEEDED <;>
      simp [he, hc, hs]

/-! ## Claims about StateTask -/

/-- Claim C5: a Task-state invocation failing with a timeout produces the
FailureEvent with error name States.Timeout and history event type
TaskTimedOut; any non-timeout exception is mapped by the generic superclass
failure conversion. -/
theorem task_from_error_timeout_mapping (ex : PyException) :
    StateTask.fromError ex =
      if ex.isTimeoutError then
        { error_name := { typ := StatesErrorNameType.StatesTimeout }
          event_type := HistoryEventType.TaskTimedOut
          event_details := {
            taskTimedOutEventDetails := some { error := "States.Timeout" }
            taskFailedEventDetails := none } }
      else ExecutionState.fromError ex := by
  cases ex <;> rfl

def taskNoParams : StateTaskModel :=
  { parameters := none, supportedParameters := none }

def taskEnvA : TaskEnv :=
  { stack := [Json.obj [("a", Json.num 1)]] }

/-- Claim C6, counterexample: with the parameters field absent, the parameters
document produced by `_eval_parameters` is the empty document, not the state's
current input: here the stack-top is the object with key a, yet the produced
document is empty. -/
theorem eval_parameters_absent_not_input :
    taskNoParams.parameters = none ∧
    taskEnvA.stack.head? = some (Json.obj [("a", Json.num 1)]) ∧
    Json.obj (StateTask.evalParameters taskNoParams taskEnvA).2 ≠
      Json.obj [("a", Json.num 1)] := by
  refine ⟨rfl, rfl, ?_⟩
  intro h
  have h2 : ([] : List (String × Json)) = [("a", Json.num 1)] := by
    injection h
  exact List.noConfusion h2

/-- Claim C6 as amended: for every Task state whose parameters field is
absent, the parameters document produced for the resource invocation is the
empty document (and the environment is left unchanged), regardless of the
state's current input. -/
theorem eval_parameters_absent_yields_empty
    (st : StateTaskModel) (env : TaskEnv) (hp : st.parameters = none) :
    StateTask.evalParameters st env = (env, []) := by
  unfold StateTask.evalParameters
  rw [hp]
  cases st.supportedParameters with
  | none => rfl
  | some supported =>
      by_cases hl : supported.isEmpty <;> simp [hl]

theorem eval_parameters_absent_witness :
    taskNoParams.parameters = none ∧
    StateTask.evalParameters taskNoParams taskEnvA = (taskEnvA, []) :=
  ⟨rfl, eval_parameters_absent_yields_empty taskNoParams taskEnvA rfl⟩

/-! ## Claims about the IAM role resource provider -/

def rolePrev : IAMRoleProperties :=
  { RoleName := some "role-a"
    AssumeRolePolicyDocument := some "policy-doc"
    ManagedPolicyArns := some ["arn:aws:iam::aws:policy/p1"]
    Description := none
    Arn := some "arn:aws:iam::000000000000:role/role-a"
    RoleId := some "AROA00000000000000000" }

/-- A desired state whose RoleName is absent (hence differs, as a value, from
the previous state's RoleName) while policy and managed ARNs are unchanged. -/
def roleDesiredNoName : IAMRoleProperties :=
  { RoleName := none
    AssumeRolePolicyDocument := some "policy-doc"
    ManagedPolicyArns := some ["arn:aws:iam::aws:policy/p1"]
    Description := none
    Arn := none
    RoleId := none }

/-- A desired state differing from the previous one in ManagedPolicyArns. -/
def roleDesiredNewArns : IAMRoleProperties :=
  { RoleName := some "role-a"
    AssumeRolePolicyDocument := some "policy-doc"
    ManagedPolicyArns := some ["arn:aws:iam::aws:policy/p2"]
    Description := none
    Arn := none
    RoleId := none }

/-- Claim C10, counterexample: the desired RoleName (absent) differs from the
previous state's RoleName, yet update does not replace the role: it returns
success with the previous state and issues no mutating call, because the code
guards each comparison with Python truthiness of the desired value. -/
theorem role_update_differs_but_keeps :
    roleDesiredNoName.RoleName ≠ rolePrev.RoleName ∧
    IAMRoleProvider.update rolePrev roleDesiredNoName =
      Except.ok (UpdateOutcome.keep rolePrev) ∧
    (UpdateOutcome.keep rolePrev).mutations = [] := by
  refine ⟨?_, rfl, rfl⟩
  simp [roleDesiredNoName, rolePrev]

/-- Claim C10 as amended: update never modifies a role in place; it performs
delete-then-create exactly when a non-empty desired RoleName differs from the
previous name, or a non-empty desired AssumeRolePolicyDocument differs from
the previous one (absent previous read as empty), or the ManagedPolicyArns
lists (absent read as the empty list) differ; otherwise it returns success
with the previous state unchanged and issues no mutating call. -/
theorem role_update_replaces_iff_required
    (prev desired : IAMRoleProperties) (prevName : String)
    (hp : prev.RoleName = some prevName) :
    IAMRoleProvider.update prev desired =
      Except.ok (if roleUpdateRequiresReplacement prev desired prevName
                 then UpdateOutcome.replace else UpdateOutcome.keep prev) ∧
    UpdateOutcome.replace.mutations =
      [IamMutation.deleteExistingRole, IamMutation.createNewRole] ∧
    (UpdateOutcome.keep prev).mutations = [] := by
  refine ⟨?_, rfl, rfl⟩
  unfold IAMRoleProvider.update roleUpdateRequiresReplacement
  rw [hp]
  rw [apply_ite Except.ok]

theorem role_update_replaces_iff_required_witness :
    rolePrev.RoleName = some "role-a" ∧
    roleUpdateRequiresReplacement rolePrev roleDesiredNewArns "role-a" = true ∧
    (IAMRoleProvider.update rolePrev roleDesiredNewArns =
       Except.ok (if roleUpdateRequiresReplacement rolePrev roleDesiredNewArns "role-a"
                  then UpdateOutcome.replace else UpdateOutcome.keep rolePrev) ∧
     UpdateOutcome.replace.mutations =
       [IamMutation.deleteExistingRole, IamMutation.createNewRole] ∧
     (UpdateOutcome.keep rolePrev).mutations = []) :=
  ⟨rfl, rfl, role_update_replaces_iff_required rolePrev roleDesiredNewArns "role-a" rfl⟩

end LocalStackSpec
